import Mathlib

/-!
Verification development for the breenix debugger-session controller
(scripts under breenix-gdb-chat: gdb_chat.py, lib/gdb_controller.py,
lib/gdb_parser.py, gdb_cmd.py).

The Python source is shallowly embedded: pure functions become Lean
functions, the regex calls are interpreted by a small backtracking
matcher with Python (leftmost, greedy) semantics, and the effectful
pieces (the prompt wait loop, command execution, the serial-log read
cursor, session reattachment) are modelled by explicit data passing:
the stream of poll results becomes a list of chunks, raised exceptions
become an error variant, and the file system becomes explicit values.
-/

/-! ## Python string primitives -/

/-- Python whitespace, as used by str.strip / str.rstrip and the regex class \s. -/
def pyIsSpace (c : Char) : Bool :=
  c = ' ' || c = '\t' || c = '\n' || c = '\r' || c = '\x0b' || c = '\x0c'

/-- Python str.strip() on a character list. -/
def stripChars (l : List Char) : List Char :=
  ((l.dropWhile pyIsSpace).reverse.dropWhile pyIsSpace).reverse

/-- Python str.strip(). -/
def pyStrip (s : String) : String :=
  String.mk (stripChars s.data)

/-- Python str.rstrip(). -/
def pyRstrip (s : String) : String :=
  String.mk ((s.data.reverse.dropWhile pyIsSpace).reverse)

/-- Python str.lower() (ASCII, which covers every command text in the source). -/
def pyLower (s : String) : String :=
  String.mk (s.data.map Char.toLower)

/-- Substring containment on character lists: Python's `needle in hay`. -/
def containsSub (needle : List Char) : List Char → Bool
  | [] => needle.isEmpty
  | c :: t => needle.isPrefixOf (c :: t) || containsSub needle t

/-- Python's `needle in hay` on strings. -/
def containsStr (hay needle : String) : Bool :=
  containsSub needle.data hay.data

/-- Python str.endswith. -/
def strEndsWith (s p : String) : Bool :=
  p.data.isSuffixOf s.data

/-- Python str.startswith. -/
def strStartsWith (s p : String) : Bool :=
  p.data.isPrefixOf s.data

/-- Splitting a character list at newlines, accumulating the current
line reversed. -/
def splitLinesAux (cur : List Char) : List Char → List String
  | [] => [String.mk cur.reverse]
  | c :: t =>
      if c = '\n' then String.mk cur.reverse :: splitLinesAux [] t
      else splitLinesAux (c :: cur) t

/-- Python s.split(newline): always nonempty, empty input gives one
empty line, a trailing newline gives a trailing empty line. -/
def pySplitLines (s : String) : List String :=
  splitLinesAux [] s.data

/-- Python newline.join(lines). -/
def joinLines : List String → String
  | [] => ""
  | [l] => l
  | l :: ls => l ++ "\n" ++ joinLines ls

/-- Python s[:n] (character slicing from the start). -/
def pyTake (s : String) (n : Nat) : String :=
  String.mk (s.data.take n)

/-- Lookup in the association-list model of a Python dict. -/
def dictGet (d : List (String × String)) (n : String) : Option String :=
  match d with
  | [] => none
  | (k, v) :: t => if k = n then some v else dictGet t n

/-- Python int() on a decimal-digit string. -/
def natOfDigits (s : String) : Nat :=
  s.data.foldl (fun n c => n * 10 + (c.toNat - 48)) 0

/-- Value of one hexadecimal digit character. -/
def hexDigitVal (c : Char) : Nat :=
  if c.isDigit then c.toNat - 48
  else if 'a' ≤ c && c ≤ 'f' then c.toNat - 87
  else c.toNat - 55

/-- Hexadecimal digit character class, the regex class [0-9a-fA-F]. -/
def isHexChar (c : Char) : Bool :=
  c.isDigit || ('a' ≤ c && c ≤ 'f') || ('A' ≤ c && c ≤ 'F')

/-- Python int(s, 16) on the "0x"-prefixed strings the parsers capture. -/
def pyIntHex (s : String) : Nat :=
  (s.data.drop 2).foldl (fun n c => n * 16 + hexDigitVal c) 0

/-- Python hex(): "0x" followed by lowercase hexadecimal digits. -/
def pyHex (n : Nat) : String :=
  "0x" ++ String.mk (Nat.toDigits 16 n)

/-- The regex word-character class \w (ASCII range, as in the source's inputs). -/
def isWordChar (c : Char) : Bool :=
  c.isAlphanum || c = '_'

/-! ## A small regex interpreter

The structured-output parsers in lib/gdb_parser.py are built on `re`.
The patterns they use combine literals, character classes, greedy `+`,
`*` and `?`, and capture groups; this interpreter reproduces Python's
leftmost, greedy, backtracking semantics for exactly those constructs.
Match outcomes are produced in priority order, so the head of the
outcome list is the match `re` would report. -/

inductive RE where
  | eps : RE
  | lit : Char → RE
  | cls : (Char → Bool) → RE
  | plus : (Char → Bool) → RE
  | star : (Char → Bool) → RE
  | seq : RE → RE → RE
  | opt : RE → RE
  | grp : Nat → RE → RE

/-- Length of the maximal run of characters satisfying p. -/
def runLen (p : Char → Bool) : List Char → Nat
  | [] => 0
  | c :: t => if p c then runLen p t + 1 else 0

/-- Captured groups of one match attempt: group index paired with its text. -/
abbrev Caps := List (Nat × String)

/-- All ways a pattern can match a prefix of the input, each with its
captured groups and the remaining input, in backtracking priority order
(greedy quantifiers offer longer consumptions first). -/
def matchRE : RE → List Char → List (Caps × List Char)
  | .eps, s => [([], s)]
  | .lit c, s =>
      match s with
      | [] => []
      | d :: t => if d = c then [([], t)] else []
  | .cls p, s =>
      match s with
      | [] => []
      | d :: t => if p d then [([], t)] else []
  | .plus p, s =>
      let m := runLen p s
      (List.range m).map (fun i => ([], s.drop (m - i)))
  | .star p, s =>
      let m := runLen p s
      (List.range (m + 1)).map (fun i => ([], s.drop (m - i)))
  | .seq a b, s =>
      (matchRE a s).flatMap (fun pr =>
        (matchRE b pr.2).map (fun pr2 => (pr.1 ++ pr2.1, pr2.2)))
  | .opt a, s => matchRE a s ++ [([], s)]
  | .grp i a, s =>
      (matchRE a s).map (fun pr =>
        (pr.1 ++ [(i, String.mk (s.take (s.length - pr.2.length)))], pr.2))

/-- Sequence a list of pattern pieces. -/
def rseq (l : List RE) : RE :=
  l.foldr RE.seq RE.eps

/-- Python re.match: attempt the pattern at the start of the string. -/
def reMatch (pat : RE) (s : String) : Option Caps :=
  (matchRE pat s.data).head?.map Prod.fst

/-- Python re.search on a character list: try successive start positions. -/
def searchAux (pat : RE) : List Char → Option Caps
  | [] => (matchRE pat []).head?.map Prod.fst
  | c :: t =>
      match (matchRE pat (c :: t)).head? with
      | some pr => some pr.1
      | none => searchAux pat t

/-- Python re.search. -/
def reSearch (pat : RE) (s : String) : Option Caps :=
  searchAux pat s.data

/-- Python match.group(i): the text of capture group i, none when the
group did not participate in the match. -/
def capGet (caps : Caps) (i : Nat) : Option String :=
  (caps.find? (fun p => p.1 == i)).map Prod.snd

/-! ## lib/gdb_parser.py -/

/-- Python dict insertion: an existing key keeps its position and gets the
new value, a new key is appended. -/
def dictInsert : List (String × String) → String → String → List (String × String)
  | [], k, v => [(k, v)]
  | (k0, v0) :: t, k, v =>
      if k0 = k then (k, v) :: t else (k0, v0) :: dictInsert t k v

/-- The pattern of parse_registers: a word run, whitespace, then a
"0x"-prefixed hexadecimal value, anchored at the start of the line. -/
def registersRE : RE :=
  rseq [.grp 1 (.plus isWordChar), .plus pyIsSpace,
        .grp 2 (rseq [.lit '0', .lit 'x', .plus isHexChar])]

/-- One line of "info registers" output: the (name, hex value) entry the
line contributes, if it matches. -/
def regLineParse (line : String) : Option (String × String) :=
  match reMatch registersRE (pyStrip line) with
  | none => none
  | some caps =>
      match capGet caps 1, capGet caps 2 with
      | some n, some v => some (n, v)
      | _, _ => none

/-- parse_registers from lib/gdb_parser.py (the same scan, with the same
pattern, implements GDBChat._parse_registers in gdb_chat.py). -/
def parse_registers (output : String) : List (String × String) :=
  (pySplitLines output).foldl
    (fun regs line =>
      match regLineParse line with
      | some (n, v) => dictInsert regs n v
      | none => regs)
    []

/-- A stack frame as built by parse_backtrace: args, file and line are
absent exactly when the corresponding dict keys are absent in Python. -/
structure Frame where
  number : Nat
  address : String
  function : String
  args : Option String
  file : Option String
  line : Option Nat
deriving DecidableEq, Repr

/-- The frame pattern with source information of parse_backtrace. -/
def btWithSourceRE : RE :=
  rseq [.lit '#', .grp 1 (.plus Char.isDigit), .plus pyIsSpace,
        .grp 2 (rseq [.lit '0', .lit 'x', .plus isHexChar]), .plus pyIsSpace,
        .lit 'i', .lit 'n', .plus pyIsSpace,
        .grp 3 (.plus (fun c => !pyIsSpace c)), .star pyIsSpace,
        .lit '(', .grp 4 (.star (fun c => c ≠ ')')), .lit ')',
        .opt (rseq [.plus pyIsSpace, .lit 'a', .lit 't', .plus pyIsSpace,
                    .grp 5 (.plus (fun c => c ≠ ':')), .lit ':',
                    .grp 6 (.plus Char.isDigit)])]

/-- The source-less frame pattern of parse_backtrace (also the pattern of
GDBChat._parse_backtrace in gdb_chat.py). -/
def btNoSourceRE : RE :=
  rseq [.lit '#', .grp 1 (.plus Char.isDigit), .plus pyIsSpace,
        .grp 2 (rseq [.lit '0', .lit 'x', .plus isHexChar]), .plus pyIsSpace,
        .lit 'i', .lit 'n', .plus pyIsSpace,
        .grp 3 (.plus (fun c => !pyIsSpace c))]

/-- One line of backtrace output: the frame it contributes, if any. -/
def btLineParse (line0 : String) : Option Frame :=
  let line := pyStrip line0
  match reSearch btWithSourceRE line with
  | some caps =>
      some { number := natOfDigits ((capGet caps 1).getD "")
             address := (capGet caps 2).getD ""
             function := (capGet caps 3).getD ""
             args := some ((capGet caps 4).getD "")
             file := match capGet caps 5 with
                     | some f => if f = "" then none else some f
                     | none => none
             line := match capGet caps 5 with
                     | some f =>
                         if f = "" then none
                         else some (natOfDigits ((capGet caps 6).getD ""))
                     | none => none }
  | none =>
      match reSearch btNoSourceRE line with
      | some caps =>
          some { number := natOfDigits ((capGet caps 1).getD "")
                 address := (capGet caps 2).getD ""
                 function := (capGet caps 3).getD ""
                 args := none, file := none, line := none }
      | none => none

/-- parse_backtrace on an already-split list of lines. -/
def backtraceLines (lines : List String) : List Frame :=
  lines.filterMap btLineParse

/-- parse_backtrace from lib/gdb_parser.py. -/
def parse_backtrace (output : String) : List Frame :=
  backtraceLines (pySplitLines output)

/-- re.findall of the hex-value pattern: scan left to right, at each
position try "0x" followed by a maximal nonempty hexadecimal run, emit it
and continue past it, otherwise advance one character. -/
def findAllHexAux : Nat → List Char → List String
  | 0, _ => []
  | _, [] => []
  | fuel + 1, '0' :: 'x' :: r =>
      let k := runLen isHexChar r
      if k = 0 then findAllHexAux fuel ('x' :: r)
      else ("0x" ++ String.mk (r.take k)) :: findAllHexAux fuel (r.drop k)
  | fuel + 1, _ :: t => findAllHexAux fuel t

/-- Every step of the scan consumes at least one character, so fuel equal
to the input length runs the scan to completion. -/
def findAllHex (l : List Char) : List String :=
  findAllHexAux l.length l

/-- The line pattern of parse_memory: an address, an optional bracketed
symbol, a colon, whitespace, then the rest of the line. -/
def memoryRE : RE :=
  rseq [.grp 1 (rseq [.lit '0', .lit 'x', .plus isHexChar]),
        .opt (rseq [.plus pyIsSpace, .lit '<', .plus (fun c => c ≠ '>'), .lit '>']),
        .lit ':', .plus pyIsSpace,
        .grp 2 (.star (fun c => c ≠ '\n'))]

/-- The (base address, rest of line) the memory-line pattern captures. -/
def memLineCaps (line : String) : Option Caps :=
  reMatch memoryRE (pyStrip line)

/-- Entries one line of x/ output contributes: every hex value on the
line, at synthesized address base + index * 8 (the source always assumes
8-byte words, see the comment in parse_memory). -/
def memLineEntries (line : String) : List (String × String) :=
  match memLineCaps line with
  | none => []
  | some caps =>
      let address := (capGet caps 1).getD ""
      let rest := (capGet caps 2).getD ""
      ((findAllHex rest.data).enum).map
        (fun p => (pyHex (pyIntHex address + p.1 * 8), p.2))

/-- parse_memory from lib/gdb_parser.py. -/
def parse_memory (output : String) : List (String × String) :=
  (pySplitLines output).flatMap memLineEntries

/-- Last n elements of a list: Python l[-n:] for 0 < n ≤ l.length. -/
def lastN (n : Nat) (l : List String) : List String :=
  l.drop (l.length - n)

/-- truncate_output from lib/gdb_parser.py. int(max_lines * 0.4) is
modelled as max_lines * 4 / 10, exact for the default 100 used at every
call site. -/
def truncate_output (text : String) (maxLines : Nat := 100) : String :=
  if text = "" then text
  else
    let lines := pySplitLines text
    if lines.length ≤ maxLines then text
    else
      let keepTop := maxLines * 4 / 10
      let keepBottom := maxLines * 4 / 10
      let omitted := lines.length - keepTop - keepBottom
      joinLines (lines.take keepTop)
        ++ "\n\n... [" ++ toString omitted ++ " lines omitted] ...\n\n"
        ++ joinLines (lastN keepBottom lines)

/-! ## The prompt/event scanner waits

GDBChat._wait_for_prompt (gdb_chat.py) and GDBSession._wait_for_prompt
(lib/gdb_controller.py) poll the debugger's stdout until a deadline.
The sequence of poll results up to the absolute deadline is modelled as
a list of chunks, where "" stands for a poll interval in which no bytes
were ready (the code appends and re-checks only on a nonempty chunk);
exhausting the list is reaching the deadline, which raises TimeoutError,
modelled as the error variant carrying the exception's message. -/

/-- The return condition checked by GDBChat._wait_for_prompt after each
nonempty chunk: with breakpoint detection on, a "Breakpoint" marker plus
the prompt anywhere in the accumulator returns; otherwise the
accumulator, right-stripped, must end with the prompt. -/
def chatTerminal (allowBp : Bool) (output : String) : Bool :=
  (allowBp
    && (containsStr output "Breakpoint" || containsStr output "hit Breakpoint")
    && containsStr output "(gdb)")
  || strEndsWith (pyRstrip output) "(gdb)"

/-- GDBChat._wait_for_prompt. The idle timer in the source only writes a
heartbeat to stderr and resets itself; it changes no control flow, so the
"" chunks (idle polls) leave the state untouched. -/
def chatWaitLoop (allowBp : Bool) : List String → String → Except String String
  | [], _ => .error "Timeout waiting for GDB prompt"
  | c :: cs, acc =>
      if c = "" then chatWaitLoop allowBp cs acc
      else
        let acc2 := acc ++ c
        if chatTerminal allowBp acc2 then .ok acc2
        else chatWaitLoop allowBp cs acc2

/-- GDBSession._wait_for_prompt: returns as soon as the prompt appears
anywhere in the accumulator; on deadline the TimeoutError message embeds
the first 500 characters of the accumulated output. -/
def sessionWaitLoop : List String → String → Except String String
  | [], acc => .error ("Timeout waiting for GDB prompt. Output: " ++ pyTake acc 500)
  | c :: cs, acc =>
      if c = "" then sessionWaitLoop cs acc
      else
        let acc2 := acc ++ c
        if containsStr acc2 "(gdb)" then .ok acc2
        else sessionWaitLoop cs acc2

/-- All chunks of a poll stream appended onto an accumulator. -/
def accumAll (acc : String) (chunks : List String) : String :=
  chunks.foldl (fun a c => a ++ c) acc

/-! ## The command dispatcher (GDBChat.execute, gdb_chat.py) -/

/-- The timeout / breakpoint-detection policy chosen by GDBChat.execute:
with no caller-supplied timeout, the continue verbs and run-prefixed
commands get 300 seconds with breakpoint detection, everything else 30
seconds without; a caller-supplied timeout is used as given and the
classification block is skipped, leaving breakpoint detection off. -/
def classifyCommand (command : String) (timeoutArg : Option Nat) : Nat × Bool :=
  let cmdLower := pyLower (pyStrip command)
  match timeoutArg with
  | some t => (t, false)
  | none =>
      if cmdLower = "continue" || cmdLower = "c" || cmdLower = "cont" then (300, true)
      else if strStartsWith cmdLower "run" then (300, true)
      else (30, false)

/-- Outcome of one _send_raw / _send_command call: the raw output when the
prompt wait succeeded, or the TimeoutError (with its message), or any
other exception (with its message). -/
inductive SendOut where
  | ok : String → SendOut
  | timeout : String → SendOut
  | exc : String → SendOut

/-- GDBChat.get_new_serial_output: read the serial log from the saved
cursor, at most maxBytes, and advance the cursor; a missing file or no
new content reads as empty with the cursor unchanged. -/
def serialRead (fileExists : Bool) (file : String) (pos maxBytes : Nat) : String × Nat :=
  if !fileExists then ("", pos)
  else if file.length ≤ pos then ("", pos)
  else
    let content := (file.data.drop pos).take maxBytes
    (String.mk content, pos + content.length)

/-- The output cleaning in GDBChat.execute: drop blank lines, bare prompt
lines and lines containing the command echo, then strip. -/
def chatClean (command raw : String) : String :=
  pyStrip (joinLines
    ((pySplitLines raw).filter (fun l =>
      !(pyStrip l = "") && !(pyStrip l = "(gdb)") && !(containsStr l command))))

/-- The polymorphic structured output of GDBChat._parse. -/
inductive ChatParsed where
  | str : String → ChatParsed
  | regs : List (String × String) → ChatParsed
  | frames : List (Nat × String × String) → ChatParsed
deriving DecidableEq, Repr

/-- re.finditer: repeatedly search from the current position, emitting
each match's groups and continuing after its end (the patterns used here
never match the empty string; if one did, the scan advances one
character, as Python does). -/
def findIterAux (pat : RE) : Nat → List Char → List Caps
  | 0, _ => []
  | _, [] => ((matchRE pat []).head?.map Prod.fst).toList
  | fuel + 1, c :: t =>
      match (matchRE pat (c :: t)).head? with
      | none => findIterAux pat fuel t
      | some pr =>
          if pr.2.length < (c :: t).length then pr.1 :: findIterAux pat fuel pr.2
          else pr.1 :: findIterAux pat fuel t

/-- Every scan step consumes at least one character (the match or a
one-character advance), so fuel equal to the input length suffices. -/
def findIter (pat : RE) (s : List Char) : List Caps :=
  findIterAux pat s.length s

/-- GDBChat._parse_backtrace: finditer of the frame pattern over the whole
output, keeping frame number, address and function. -/
def chatBtFrames (output : String) : List (Nat × String × String) :=
  (findIter btNoSourceRE output.data).map (fun caps =>
    (natOfDigits ((capGet caps 1).getD ""),
     (capGet caps 2).getD "", (capGet caps 3).getD ""))

/-- GDBChat._parse: structured parse selected by command prefix. -/
def chatParse (command output : String) : ChatParsed :=
  let cmd := pyStrip (pyLower command)
  if strStartsWith cmd "info reg" then .regs (parse_registers output)
  else if strStartsWith cmd "bt" || strStartsWith cmd "backtrace" then .frames (chatBtFrames output)
  else .str output

/-- The JSON result dict of GDBChat.execute; absent dict keys are none. -/
structure ChatResult where
  success : Bool
  command : String
  error : Option String := none
  output : Option ChatParsed := none
  raw : Option String := none
  timeMs : Option Nat := none
  serialOutput : Option String := none
deriving DecidableEq, Repr

/-- GDBChat.execute. The wait itself is chatWaitLoop; its outcome enters
here as a SendOut. Elapsed wall-clock time is not modelled (recorded as
0). Returns the result dict and the new serial read cursor. -/
def chatExecute (running : Bool) (command : String) (timeoutArg : Option Nat)
    (send : SendOut) (serialExists : Bool) (serialFile : String) (serialPos : Nat) :
    ChatResult × Nat :=
  if !running then
    ({ success := false, error := some "GDB not running", command := command }, serialPos)
  else
    match send with
    | .ok raw =>
        let output := chatClean command raw
        let parsed := chatParse command output
        let sr := serialRead serialExists serialFile serialPos 8192
        ({ success := true, command := command, output := some parsed,
           raw := some (pyTake output 2000), timeMs := some 0,
           serialOutput := if sr.1 = "" then none else some (pyTake sr.1 4000) }, sr.2)
    | .timeout _ =>
        let sr := serialRead serialExists serialFile serialPos 8192
        ({ success := false, error := some "timeout", command := command,
           serialOutput := if sr.1 = "" then none else some (pyTake sr.1 4000) }, sr.2)
    | .exc m =>
        let sr := serialRead serialExists serialFile serialPos 8192
        ({ success := false, error := some m, command := command,
           serialOutput := if sr.1 = "" then none else some (pyTake sr.1 4000) }, sr.2)

/-! ## GDBSession.execute_command (lib/gdb_controller.py) -/

/-- The output cleaning in execute_command: drop lines containing the
command echo or consisting of the bare prompt, keep nonblank lines. -/
def sessClean (command raw : String) : String :=
  pyStrip (joinLines
    ((pySplitLines raw).filter (fun l =>
      !(containsStr l command) && !(pyStrip l = "(gdb)") && !(pyStrip l = ""))))

/-- The polymorphic structured output of GDBSession._parse_output. -/
inductive SessParsed where
  | str : String → SessParsed
  | regs : List (String × String) → SessParsed
  | frames : List Frame → SessParsed
  | mem : List (String × String) → SessParsed
deriving DecidableEq, Repr

/-- GDBSession._parse_output: parser selected by command prefix. -/
def sessParse (command output : String) : SessParsed :=
  let cmdLower := pyStrip (pyLower command)
  if strStartsWith cmdLower "info reg" then .regs (parse_registers output)
  else if strStartsWith cmdLower "bt" || strStartsWith cmdLower "backtrace" then
    .frames (parse_backtrace output)
  else if strStartsWith cmdLower "x/" then .mem (parse_memory output)
  else .str output

/-- The JSON result dict of GDBSession.execute_command. -/
structure SessResult where
  command : String
  success : Bool
  output : Option SessParsed := none
  raw : Option String := none
  error : Option String := none
  errorType : Option String := none
  timeMs : Option Nat := none
deriving DecidableEq, Repr

/-- GDBSession.execute_command: success carries parsed output plus
truncated raw text; a recognized failure phrase in the cleaned output is
a gdb_error; TimeoutError is a timeout; any other exception (including
the RuntimeError for a dead GDB process) is unknown. -/
def execute_command (command : String) (send : SendOut) : SessResult :=
  match send with
  | .ok raw =>
      let output := sessClean command raw
      if containsStr output "Cannot" || containsStr output "No symbol" then
        { command := command, success := false, error := some output,
          errorType := some "gdb_error", timeMs := some 0 }
      else
        { command := command, success := true,
          output := some (sessParse command output),
          raw := some (truncate_output output), timeMs := some 0 }
  | .timeout m =>
      { command := command, success := false, error := some m,
        errorType := some "timeout" }
  | .exc m =>
      { command := command, success := false, error := some m,
        errorType := some "unknown" }

/-! ## Session reattachment (gdb_cmd.py) -/

/-- The per-pid liveness check in load_session: a pid recorded in the
metadata is probed with os.kill(pid, 0) only when truthy; a probe
failure produces the RuntimeError message. -/
def deadPidMsg (label : String) (alive : Nat → Bool) : Option Nat → Option String
  | none => none
  | some p =>
      if p ≠ 0 && !(alive p) then
        some (label ++ " process " ++ toString p ++ " is not running")
      else none

/-- Outcome of load_session as main sees it: FileNotFoundError when no
metadata record exists, RuntimeError when a tracked process is gone, and
otherwise the AttributeError from the final GDBSession.load call (the
class defines no such method). -/
inductive LoadOutcome where
  | notFound : String → LoadOutcome
  | dead : String → LoadOutcome
  | attrErr : String → LoadOutcome
deriving DecidableEq, Repr

/-- load_session from gdb_cmd.py, with the record's existence, its two
pids and the process-existence probe made explicit. -/
def load_session (sessionId : String) (metaExists : Bool)
    (gdbPid qemuPid : Option Nat) (alive : Nat → Bool) : LoadOutcome :=
  if !metaExists then .notFound ("Session " ++ sessionId ++ " not found")
  else
    match deadPidMsg "GDB" alive gdbPid with
    | some m => .dead m
    | none =>
        match deadPidMsg "QEMU" alive qemuPid with
        | some m => .dead m
        | none => .attrErr "type object GDBSession has no attribute load"

/-- The error_type main (gdb_cmd.py) reports for each load_session
outcome, via its ordered except clauses. -/
def gdbCmdErrorType : LoadOutcome → String
  | .notFound _ => "session_not_found"
  | .dead _ => "session_dead"
  | .attrErr _ => "execution_failed"

/-! ## Claim-side definitions -/

/-- The terminal condition exactly as claim C1 words it: the accumulator,
right-trimmed, ends with the prompt, or breakpoint detection is on and a
stop-event marker is present and the accumulator is prompt-terminated. -/
def claimC1Terminal (allowBp : Bool) (output : String) : Bool :=
  strEndsWith (pyRstrip output) "(gdb)"
  || (allowBp && containsStr output "Breakpoint"
      && strEndsWith (pyRstrip output) "(gdb)")

/-- A continue or run verb in the sense of claim C3 and of the source's
classification: trimmed lower-cased text equal to a continue verb or
starting with run. -/
def isResumeVerb (command : String) : Bool :=
  let cmdLower := pyLower (pyStrip command)
  cmdLower = "continue" || cmdLower = "c" || cmdLower = "cont"
  || strStartsWith cmdLower "run"

/-- Claim-side definition following the words of the spec (section 4.4)
for claim C8: the word width an examine command specifies through its GDB
size letter (b, h, w or g after the x/ prefix), defaulting to 8 bytes. -/
def specWordWidth (command : String) : Nat :=
  let fmt := ((pyStrip command).data.drop 2).takeWhile (fun c => !pyIsSpace c)
  if fmt.contains 'b' then 1
  else if fmt.contains 'h' then 2
  else if fmt.contains 'w' then 4
  else if fmt.contains 'g' then 8
  else 8

/-- The value claim C6 assigns to a register name: the hex value on the
last matching line bearing that name (later duplicates overwrite). -/
def lastRegValue (output : String) (name : String) : Option String :=
  ((pySplitLines output).filterMap regLineParse).foldl
    (fun acc p => if p.1 = name then some p.2 else acc) none

/-! ## Helper lemmas -/

theorem dictGet_dictInsert (d : List (String × String)) (k v n : String) :
    dictGet (dictInsert d k v) n = if k = n then some v else dictGet d n := by
  induction d with
  | nil => simp [dictInsert, dictGet]
  | cons hd t ih =>
      obtain ⟨k0, v0⟩ := hd
      by_cases h0 : k0 = k
      · subst h0
        simp only [dictInsert, if_pos rfl, dictGet]
        by_cases hn : k0 = n
        · simp [hn]
        · simp [hn]
      · simp only [dictInsert, if_neg h0, dictGet]
        by_cases hn : k0 = n
        · subst hn
          have h : k ≠ k0 := fun e => h0 e.symm
          simp [h, h0]
        · simp [hn, ih]

theorem dictGet_registers_fold (lines : List String) (d : List (String × String)) (n : String) :
    dictGet
      (lines.foldl
        (fun regs line =>
          match regLineParse line with
          | some (a, b) => dictInsert regs a b
          | none => regs) d) n
      = (lines.filterMap regLineParse).foldl
          (fun acc p => if p.1 = n then some p.2 else acc) (dictGet d n) := by
  induction lines generalizing d with
  | nil => simp
  | cons l ls ih =>
      cases h : regLineParse l with
      | none => simp [h, ih]
      | some p =>
          obtain ⟨a, b⟩ := p
          simp only [List.foldl_cons, List.filterMap_cons, h]
          rw [ih, dictGet_dictInsert]

/-! ## Claim theorems -/

/-- C6: parsing "info registers"-class output maps each line matching
name-whitespace-hex to one entry from register name to hexadecimal value,
later duplicate names overwriting earlier ones, and the concrete two-line
scenario parses to exactly the expected map. -/
theorem registers_parse_entries :
    (∀ output name,
        dictGet (parse_registers output) name = lastRegValue output name)
    ∧ parse_registers
        "rax            0x0    0\nrbx            0xffff800000010000    281474976776192"
        = [("rax", "0x0"), ("rbx", "0xffff800000010000")] := by
  constructor
  · intro output name
    unfold parse_registers lastRegValue
    simpa [dictGet] using dictGet_registers_fold (pySplitLines output) [] name
  · decide

/-- C10: output of at most 100 lines is returned unchanged; more than 100
lines truncate to the first 40 lines, a marker stating the number of
omitted lines, then the last 40 lines. -/
theorem truncate_output_behavior :
    ∀ text : String,
      ((pySplitLines text).length ≤ 100 → truncate_output text = text)
      ∧ (100 < (pySplitLines text).length →
          truncate_output text
            = joinLines ((pySplitLines text).take 40)
              ++ "\n\n... [" ++ toString ((pySplitLines text).length - 80)
              ++ " lines omitted] ...\n\n"
              ++ joinLines ((pySplitLines text).drop ((pySplitLines text).length - 40))) := by
  intro text
  constructor
  · intro h
    unfold truncate_output
    by_cases he : text = ""
    · simp [he]
    · simp [he, h]
  · intro h
    have he : text ≠ "" := by
      intro e
      rw [e] at h
      have h1 : (pySplitLines "").length = 1 := by decide
      omega
    unfold truncate_output
    simp only [he, if_neg, if_false, Nat.not_le.mpr h, lastN]
    have h80 : (pySplitLines text).length - 100 * 4 / 10 - 100 * 4 / 10
        = (pySplitLines text).length - 80 := by omega
    have h40 : (100 : Nat) * 4 / 10 = 40 := by norm_num
    rw [h40, h80]

theorem chatWaitLoop_ok (allowBp : Bool) (chunks : List String) :
    ∀ acc out, chatWaitLoop allowBp chunks acc = .ok out →
      chatTerminal allowBp out = true := by
  induction chunks with
  | nil => intro acc out h; simp [chatWaitLoop] at h
  | cons c cs ih =>
      intro acc out h
      unfold chatWaitLoop at h
      split at h
      · exact ih _ _ h
      · by_cases ht : chatTerminal allowBp (acc ++ c) = true
        · simp only [ht, if_true] at h
          injection h with h2
          rw [← h2]; exact ht
        · simp only [ht, if_false, Bool.false_eq_true] at h
          exact ih _ _ h

theorem sessionWaitLoop_ok (chunks : List String) :
    ∀ acc out, sessionWaitLoop chunks acc = .ok out →
      containsStr out "(gdb)" = true := by
  induction chunks with
  | nil => intro acc out h; simp [sessionWaitLoop] at h
  | cons c cs ih =>
      intro acc out h
      unfold sessionWaitLoop at h
      split at h
      · exact ih _ _ h
      · by_cases ht : containsStr (acc ++ c) "(gdb)" = true
        · simp only [ht, if_true] at h
          injection h with h2
          rw [← h2]; exact ht
        · simp only [ht, if_false, Bool.false_eq_true] at h
          exact ih _ _ h

/-- C1 (amended): the GDBChat wait returns normally only when the
accumulator, right-trimmed, ends with the prompt, or — with breakpoint
detection enabled — contains a Breakpoint marker and contains the prompt
anywhere; the GDBSession wait returns normally only when the accumulator
contains the prompt anywhere. -/
theorem scanner_wait_terminal_only :
    (∀ allowBp chunks acc out,
        chatWaitLoop allowBp chunks acc = .ok out →
          chatTerminal allowBp out = true)
    ∧ (∀ chunks acc out,
        sessionWaitLoop chunks acc = .ok out →
          containsStr out "(gdb)" = true) :=
  ⟨fun a ch acc out h => chatWaitLoop_ok a ch acc out h,
   fun ch acc out h => sessionWaitLoop_ok ch acc out h⟩

theorem scanner_wait_terminal_only_witness :
    chatTerminal true "Breakpoint 1, foo\n(gdb) " = true
    ∧ containsStr "Breenix (gdb)" "(gdb)" = true :=
  ⟨scanner_wait_terminal_only.1 true ["Breakpoint 1, foo\n(gdb) "] ""
      "Breakpoint 1, foo\n(gdb) " (by rfl),
   scanner_wait_terminal_only.2 ["Breenix (gdb)"] "" "Breenix (gdb)" (by rfl)⟩

/-- C1 counterexample: both waits can return normally on accumulators
that are not prompt-terminated — the GDBSession wait as soon as the
prompt appears mid-text, the GDBChat wait (with breakpoint detection)
when a Breakpoint marker and a mid-text prompt are both present — so the
claim's terminal condition, which requires the right-trimmed accumulator
to end with the prompt in either disjunct, is violated. -/
theorem scanner_wait_counterexample :
    sessionWaitLoop ["(gdb) x"] "" = .ok "(gdb) x"
    ∧ claimC1Terminal false "(gdb) x" = false
    ∧ claimC1Terminal true "(gdb) x" = false
    ∧ chatWaitLoop true ["Breakpoint 1, foo\n(gdb) tail"] ""
        = .ok "Breakpoint 1, foo\n(gdb) tail"
    ∧ claimC1Terminal true "Breakpoint 1, foo\n(gdb) tail" = false := by
  refine ⟨by rfl, by decide, by decide, by rfl, by decide⟩

theorem chatWaitLoop_error (allowBp : Bool) (chunks : List String) :
    ∀ acc m, chatWaitLoop allowBp chunks acc = .error m →
      m = "Timeout waiting for GDB prompt" := by
  induction chunks with
  | nil =>
      intro acc m h
      unfold chatWaitLoop at h
      injection h with h2
      exact h2.symm
  | cons c cs ih =>
      intro acc m h
      unfold chatWaitLoop at h
      split at h
      · exact ih _ _ h
      · by_cases ht : chatTerminal allowBp (acc ++ c) = true
        · simp only [ht, if_true] at h
          exact Except.noConfusion h
        · simp only [ht, if_false, Bool.false_eq_true] at h
          exact ih _ _ h

theorem sessionWaitLoop_error (chunks : List String) :
    ∀ acc m, sessionWaitLoop chunks acc = .error m →
      m = "Timeout waiting for GDB prompt. Output: "
            ++ pyTake (accumAll acc chunks) 500 := by
  induction chunks with
  | nil =>
      intro acc m h
      unfold sessionWaitLoop at h
      injection h with h2
      rw [← h2]
      simp [accumAll]
  | cons c cs ih =>
      intro acc m h
      unfold sessionWaitLoop at h
      split at h
      · rename_i hc
        rw [ih _ _ h]
        simp [accumAll, hc, String.append_empty]
      · by_cases ht : containsStr (acc ++ c) "(gdb)" = true
        · simp only [ht, if_true] at h
          exact Except.noConfusion h
        · simp only [ht, if_false, Bool.false_eq_true] at h
          rw [ih _ _ h]
          simp [accumAll]

theorem chatWaitLoop_idle (allowBp : Bool) (l1 l2 : List String) :
    ∀ acc, chatWaitLoop allowBp (l1 ++ "" :: l2) acc
      = chatWaitLoop allowBp (l1 ++ l2) acc := by
  induction l1 with
  | nil => intro acc; simp [chatWaitLoop]
  | cons c t ih =>
      intro acc
      simp only [List.cons_append]
      unfold chatWaitLoop
      by_cases hc : c = ""
      · simp [hc, ih]
      · simp only [hc, if_false]
        by_cases ht : chatTerminal allowBp (acc ++ c) = true
        · simp [ht]
        · simp [ht, ih]

/-- C4 (amended): when no terminal condition is met before the absolute
deadline the wait raises Timeout; the GDBSession variant embeds the
first 500 characters of the accumulated text in the Timeout message,
while the GDBChat variant's Timeout message is a fixed string carrying
no partial text; and any number of idle polls (the idle timer fires only
a diagnostic heartbeat) never by itself ends the GDBChat wait — only the
deadline or a terminal condition does. -/
theorem wait_timeout_behavior :
    (∀ allowBp acc,
        chatWaitLoop allowBp [] acc = .error "Timeout waiting for GDB prompt")
    ∧ (∀ allowBp chunks acc m,
        chatWaitLoop allowBp chunks acc = .error m →
          m = "Timeout waiting for GDB prompt")
    ∧ (∀ chunks acc m,
        sessionWaitLoop chunks acc = .error m →
          m = "Timeout waiting for GDB prompt. Output: "
                ++ pyTake (accumAll acc chunks) 500)
    ∧ (∀ allowBp l1 l2 acc,
        chatWaitLoop allowBp (l1 ++ "" :: l2) acc
          = chatWaitLoop allowBp (l1 ++ l2) acc) :=
  ⟨fun _ _ => rfl,
   fun a ch acc m h => chatWaitLoop_error a ch acc m h,
   fun ch acc m h => sessionWaitLoop_error ch acc m h,
   fun a l1 l2 acc => chatWaitLoop_idle a l1 l2 acc⟩

theorem wait_timeout_behavior_witness :
    ("Timeout waiting for GDB prompt" : String) = "Timeout waiting for GDB prompt"
    ∧ ("Timeout waiting for GDB prompt. Output: part" : String)
        = "Timeout waiting for GDB prompt. Output: " ++ pyTake (accumAll "" ["part"]) 500 :=
  ⟨wait_timeout_behavior.2.1 false ["q"] "" "Timeout waiting for GDB prompt" (by rfl),
   wait_timeout_behavior.2.2.1 ["part"] ""
     "Timeout waiting for GDB prompt. Output: part" (by rfl)⟩

/-- C4 counterexample: two GDBChat waits that accumulate different
partial text raise identical Timeout values, so the accumulated partial
text is not discoverable from the call when the deadline fires. -/
theorem chat_timeout_partial_lost_counterexample :
    chatWaitLoop false ["abc"] "" = .error "Timeout waiting for GDB prompt"
    ∧ chatWaitLoop false ["xyz"] "" = .error "Timeout waiting for GDB prompt"
    ∧ ("abc" : String) ≠ "xyz" :=
  ⟨by rfl, by rfl, by decide⟩

/-- C3 (amended): with no caller-supplied timeout, a continue or run verb
(case-insensitive, trimmed) gets the long 300-second timeout with
breakpoint detection enabled and every other command the short 30-second
timeout with it disabled; a caller-supplied timeout is always used as
given, but it also skips the classification, leaving breakpoint
detection disabled even for continue and run verbs. -/
theorem dispatcher_timeout_policy :
    (∀ command t, classifyCommand command (some t) = (t, false))
    ∧ (∀ command, isResumeVerb command = true →
        classifyCommand command none = (300, true))
    ∧ (∀ command, isResumeVerb command = false →
        classifyCommand command none = (30, false)) := by
  refine ⟨fun c t => rfl, ?_, ?_⟩
  · intro c h
    unfold isResumeVerb at h
    unfold classifyCommand
    simp only [Bool.or_eq_true, decide_eq_true_eq] at h
    rcases h with ((h | h) | h) | h
    · simp [h]
    · simp [h]
    · simp [h]
    · by_cases h3 : (pyLower (pyStrip c) = "continue"
          || pyLower (pyStrip c) = "c" || pyLower (pyStrip c) = "cont") = true
      · simp [h3]
      · simp only [h3, if_false, Bool.false_eq_true]
        simp [h]
  · intro c h
    unfold isResumeVerb at h
    unfold classifyCommand
    simp only [Bool.or_eq_false_iff, decide_eq_false_iff_not] at h
    obtain ⟨⟨⟨h1, h2⟩, h3⟩, h4⟩ := h
    simp [h1, h2, h3, h4]

theorem dispatcher_timeout_policy_witness :
    classifyCommand "continue" none = (300, true)
    ∧ classifyCommand "info registers" none = (30, false) :=
  ⟨dispatcher_timeout_policy.2.1 "continue" (by decide),
   dispatcher_timeout_policy.2.2 "info registers" (by decide)⟩

/-- C3 counterexample: an explicit caller-supplied timeout on the
continue verb overrides the timeout but also leaves breakpoint detection
disabled, contradicting the claim that every continue/run verb enables
breakpoint detection. -/
theorem dispatcher_policy_counterexample :
    isResumeVerb "continue" = true
    ∧ classifyCommand "continue" (some 60) = (60, false) := by
  constructor
  · decide
  · rfl

/-- C2: every command execution result carries exactly one of the two
outcomes — success with structured output present and no error, or
failure with no output and an error classification present — for both
GDBChat.execute and GDBSession.execute_command, over every process
state, send outcome and serial-log state. -/
theorem command_result_exactly_one_outcome :
    (∀ running command timeoutArg send serialExists serialFile serialPos,
        let r := (chatExecute running command timeoutArg send
                    serialExists serialFile serialPos).1
        (r.success = true ∧ r.output.isSome = true ∧ r.error = none)
        ∨ (r.success = false ∧ r.output = none ∧ r.error.isSome = true))
    ∧ (∀ command send,
        let r := execute_command command send
        (r.success = true ∧ r.output.isSome = true
          ∧ r.error = none ∧ r.errorType = none)
        ∨ (r.success = false ∧ r.output = none
          ∧ r.error.isSome = true ∧ r.errorType.isSome = true)) := by
  constructor
  · intro running command timeoutArg send se sf sp
    cases running <;> cases send <;> simp [chatExecute]
  · intro command send
    cases send with
    | ok raw =>
        simp only [execute_command]
        split <;> simp
    | timeout m => simp [execute_command]
    | exc m => simp [execute_command]

/-- C5: a reattach-by-id with no metadata record fails classified
session_not_found; with a record whose tracked (nonzero) debugger or
emulator pid fails the existence probe, it fails classified
session_dead. -/
theorem reattach_failure_classification :
    ∀ sessionId gdbPid qemuPid (alive : Nat → Bool),
      (gdbCmdErrorType (load_session sessionId false gdbPid qemuPid alive)
          = "session_not_found")
      ∧ (∀ p, (gdbPid = some p ∧ p ≠ 0 ∧ alive p = false)
              ∨ (qemuPid = some p ∧ p ≠ 0 ∧ alive p = false) →
          gdbCmdErrorType (load_session sessionId true gdbPid qemuPid alive)
            = "session_dead") := by
  intro sid g q alive
  constructor
  · rfl
  · intro p h
    unfold load_session
    simp only [Bool.not_true, Bool.false_eq_true, if_false]
    cases hg : deadPidMsg "GDB" alive g with
    | some m => simp [gdbCmdErrorType]
    | none =>
        rcases h with ⟨hgp, hnz, hdead⟩ | ⟨hqp, hnz, hdead⟩
        · exfalso
          rw [hgp] at hg
          simp [deadPidMsg, hnz, hdead] at hg
        · cases hq : deadPidMsg "QEMU" alive q with
          | some m => simp [gdbCmdErrorType]
          | none =>
              exfalso
              rw [hqp] at hq
              simp [deadPidMsg, hnz, hdead] at hq

theorem reattach_failure_classification_witness :
    gdbCmdErrorType (load_session "s" false (some 5) (some 7) (fun _ => false))
      = "session_not_found"
    ∧ gdbCmdErrorType (load_session "s" true (some 5) (some 7) (fun _ => false))
      = "session_dead"
    ∧ gdbCmdErrorType (load_session "s" true (some 5) (some 7) (fun n => n == 5))
      = "session_dead" :=
  ⟨(reattach_failure_classification "s" (some 5) (some 7) (fun _ => false)).1,
   (reattach_failure_classification "s" (some 5) (some 7) (fun _ => false)).2 5
     (Or.inl ⟨rfl, by decide, rfl⟩),
   (reattach_failure_classification "s" (some 5) (some 7) (fun n => n == 5)).2 7
     (Or.inr ⟨rfl, by decide, by decide⟩)⟩

/-- C7: backtrace parsing turns the concrete scenario line into exactly
the expected single frame, parses a frame lacking source information
with number, address and function only, and skips malformed lines
without affecting the frames of the other lines. -/
theorem backtrace_parse_frames :
    parse_backtrace "#0  0xffffffff80001234 in kernel_main () at kernel/src/main.rs:42"
      = [{ number := 0, address := "0xffffffff80001234", function := "kernel_main",
           args := some "", file := some "kernel/src/main.rs", line := some 42 }]
    ∧ parse_backtrace "#1  0xffffffff80001000 in _start"
      = [{ number := 1, address := "0xffffffff80001000", function := "_start",
           args := none, file := none, line := none }]
    ∧ (∀ l1 l2 bad, btLineParse bad = none →
        backtraceLines (l1 ++ bad :: l2) = backtraceLines (l1 ++ l2)) := by
  refine ⟨by decide, by decide, ?_⟩
  intro l1 l2 bad h
  unfold backtraceLines
  simp [List.filterMap_append, List.filterMap_cons, h]

theorem backtrace_parse_frames_witness :
    backtraceLines (["#0  0xffffffff80001000 in foo"] ++ "no frame here" :: ["junk"])
      = backtraceLines (["#0  0xffffffff80001000 in foo"] ++ ["junk"]) :=
  backtrace_parse_frames.2.2 ["#0  0xffffffff80001000 in foo"] ["junk"]
    "no frame here" (by decide)

/-- C8 (amended): every hex value on a matching examine-memory line gets
the synthesized address base + index * 8, always with 8-byte words —
parse_memory never consults the command, so the word width the command
specifies does not change the synthesized addresses. -/
theorem memory_parse_fixed_width :
    (∀ line caps, memLineCaps line = some caps →
        memLineEntries line
          = ((findAllHex ((capGet caps 2).getD "").data).enum).map
              (fun p => (pyHex (pyIntHex ((capGet caps 1).getD "") + p.1 * 8), p.2)))
    ∧ (∀ line caps i, memLineCaps line = some caps →
        ((memLineEntries line).get? i).map Prod.fst
          = ((findAllHex ((capGet caps 2).getD "").data).get? i).map
              (fun _ => pyHex (pyIntHex ((capGet caps 1).getD "") + i * 8)))
    ∧ parse_memory
        "0xffff800000010000 <sym>:\t0x0000000000000000 0x0000000000000001\n0xffff800000010010:\t0x0000000000000002"
      = [("0xffff800000010000", "0x0000000000000000"),
         ("0xffff800000010008", "0x0000000000000001"),
         ("0xffff800000010010", "0x0000000000000002")] := by
  refine ⟨?_, ?_, by decide⟩
  · intro line caps h
    unfold memLineEntries
    rw [h]
  · intro line caps i h
    unfold memLineEntries
    rw [h, List.get?_map, List.enum_get?]
    cases (findAllHex ((capGet caps 2).getD "").data).get? i <;> simp

theorem memory_parse_fixed_width_witness :
    memLineEntries "0x10: 0x1 0x2"
      = ((findAllHex ((capGet [(1, "0x10"), (2, "0x1 0x2")] 2).getD "").data).enum).map
          (fun p =>
            (pyHex (pyIntHex ((capGet [(1, "0x10"), (2, "0x1 0x2")] 1).getD "") + p.1 * 8),
             p.2)) :=
  memory_parse_fixed_width.1 "0x10: 0x1 0x2" [(1, "0x10"), (2, "0x1 0x2")] (by decide)

/-- C8 counterexample: for an examine command that specifies 4-byte words
(the w size letter) the pipeline still synthesizes addresses 8 bytes
apart: the second word of the line gets base + 8, not base + 1 * 4 as
the claim's command-dependent word width requires. -/
theorem memory_word_width_counterexample :
    sessParse "x/2wx 0x1000" "0x1000:\t0x00000001 0x00000002"
      = .mem [("0x1000", "0x00000001"), ("0x1008", "0x00000002")]
    ∧ specWordWidth "x/2wx 0x1000" = 4
    ∧ pyHex (pyIntHex "0x1000" + 1 * specWordWidth "x/2wx 0x1000") = "0x1004"
    ∧ ("0x1008" : String) ≠ "0x1004" := by
  refine ⟨by decide, by decide, by decide, by decide⟩

/-- C9 (amended): the serial read cursor makes every read return exactly
the file content from the cursor (at most maxBytes) and advance the
cursor past it, so no content is ever returned twice; a read that ended
at end-of-file makes the next read return only newly appended content;
and on Timeout or any other exception GDBChat.execute still attaches the
new serial text (truncated to 4000 characters) to the failure result
whenever it is nonempty. After a read truncated by the byte cap, the
following read returns content that had already arrived. -/
theorem serial_cursor_and_failure_attach :
    (∀ (file : String) (pos maxBytes : Nat),
        serialRead true file pos maxBytes
          = (String.mk ((file.data.drop pos).take maxBytes),
             pos + ((file.data.drop pos).take maxBytes).length))
    ∧ (∀ (file g : String) (pos maxBytes maxBytes2 : Nat),
        (serialRead true file pos maxBytes).2 = file.length →
        (serialRead true (file ++ g) (serialRead true file pos maxBytes).2 maxBytes2).1
          = String.mk (g.data.take maxBytes2))
    ∧ (∀ command timeoutArg m serialExists serialFile serialPos,
        (chatExecute true command timeoutArg (.timeout m)
            serialExists serialFile serialPos).1.serialOutput
          = (if (serialRead serialExists serialFile serialPos 8192).1 = "" then none
             else some (pyTake (serialRead serialExists serialFile serialPos 8192).1 4000)))
    ∧ (∀ command timeoutArg m serialExists serialFile serialPos,
        (chatExecute true command timeoutArg (.exc m)
            serialExists serialFile serialPos).1.serialOutput
          = (if (serialRead serialExists serialFile serialPos 8192).1 = "" then none
             else some (pyTake (serialRead serialExists serialFile serialPos 8192).1 4000))) := by
  have hread : ∀ (file : String) (pos maxBytes : Nat),
      serialRead true file pos maxBytes
        = (String.mk ((file.data.drop pos).take maxBytes),
           pos + ((file.data.drop pos).take maxBytes).length) := by
    intro f pos mb
    unfold serialRead
    simp only [Bool.not_true, Bool.false_eq_true, if_false]
    by_cases h : f.length ≤ pos
    · have hd : f.data.drop pos = [] := List.drop_eq_nil_of_le h
      simp [h, hd]
    · simp [h]
  refine ⟨hread, ?_, ?_, ?_⟩
  · intro f g pos mb mb2 h
    rw [h, hread]
    have hd : (f ++ g).data.drop f.length = g.data := List.drop_left f.data g.data
    rw [hd]
  · intro command t m se sf sp
    cases se <;> simp [chatExecute]
  · intro command t m se sf sp
    cases se <;> simp [chatExecute]

theorem serial_cursor_and_failure_attach_witness :
    (serialRead true ("ab" ++ "XY") (serialRead true "ab" 0 2).2 3).1
      = String.mk ("XY".data.take 3) :=
  serial_cursor_and_failure_attach.2.1 "ab" "XY" 0 2 3 (by decide)

/-- C9 counterexample: after a read truncated by the per-call byte cap,
the next read returns content that was present in the log before the
first read ever ran — with no arrival in between, a nonempty second read
contradicts the claim that each incremental read returns only content
that arrived after the previous read. -/
theorem serial_read_overlap_counterexample :
    serialRead true "abcd" 0 2 = ("ab", 2)
    ∧ serialRead true "abcd" 2 2 = ("cd", 4)
    ∧ ("cd" : String) ≠ "" := by
  refine ⟨by decide, by decide, by decide⟩

set_option maxRecDepth 4000 in
theorem truncate_output_behavior_witness :
    truncate_output "a\nb" = "a\nb"
    ∧ truncate_output (joinLines (List.replicate 101 "z"))
        = joinLines ((pySplitLines (joinLines (List.replicate 101 "z"))).take 40)
          ++ "\n\n... ["
          ++ toString ((pySplitLines (joinLines (List.replicate 101 "z"))).length - 80)
          ++ " lines omitted] ...\n\n"
          ++ joinLines ((pySplitLines (joinLines (List.replicate 101 "z"))).drop
              ((pySplitLines (joinLines (List.replicate 101 "z"))).length - 40)) :=
  ⟨(truncate_output_behavior "a\nb").1 (by decide),
   (truncate_output_behavior (joinLines (List.replicate 101 "z"))).2 (by decide)⟩
